/-
Verification of the Kubernetes executor core of `incubator-airflow`
(file `airflow/contrib/executors/kubernetes_executor.py`).

The Python source is shallowly embedded: Python strings are Lean `String`
(with `List Char` used internally for character-level work), Python `None`
is `Option.none`, Python exceptions are `Except`/`Option` failure values,
and the mutable executor state is threaded explicitly through a `KState`
record.  Randomness (`uuid4().hex`) and cluster responses are passed in as
explicit parameters.  Character predicates (`str.isalnum`, `str.lower`)
are modelled over the ASCII range.
-/
import Mathlib

namespace KubeExec

/-! ## Datetimes and the ISO-8601 codec

`airflow` keys tasks by `(dag_id, task_id, execution_date)`.  The executor
serialises the `datetime` via `datetime.isoformat()` and the label-safe
`":" → "_"` substitution (`_datetime_to_label_safe_datestring`, source
lines 372-379), and parses it back with `dateutil.parser.parse` after the
reverse substitution (`_label_safe_datestring_to_datetime`, lines 363-370).

A naive `datetime.datetime` is modelled by its seven components. -/

structure PyDateTime where
  year : Nat
  month : Nat
  day : Nat
  hour : Nat
  minute : Nat
  second : Nat
  microsecond : Nat
  deriving DecidableEq, Repr

/-- Field ranges guaranteed by Python's `datetime.datetime` constructor. -/
def PyDateTime.Valid (dt : PyDateTime) : Prop :=
  1 ≤ dt.year ∧ dt.year ≤ 9999 ∧ 1 ≤ dt.month ∧ dt.month ≤ 12 ∧
  1 ≤ dt.day ∧ dt.day ≤ 31 ∧ dt.hour ≤ 23 ∧ dt.minute ≤ 59 ∧
  dt.second ≤ 59 ∧ dt.microsecond ≤ 999999

instance (dt : PyDateTime) : Decidable dt.Valid := by
  unfold PyDateTime.Valid
  infer_instance

/-- The character for decimal digit `d` (for `d < 10`). -/
def digitChar (d : Nat) : Char := Char.ofNat (48 + d)

/-- Zero-padded fixed-width decimal rendering, most significant digit
first: `padNum k n` is Python's `"%0kd" % n` for `n < 10 ^ k`. -/
def padNum : Nat → Nat → List Char
  | 0, _ => []
  | k + 1, n => digitChar (n / 10 ^ k) :: padNum k (n % 10 ^ k)

/-- Fixed-width decimal scanner: consume exactly `k` digit characters,
accumulating their value onto `acc`. -/
def scanDigits : Nat → Nat → List Char → Option (Nat × List Char)
  | 0, acc, cs => some (acc, cs)
  | _ + 1, _, [] => none
  | k + 1, acc, c :: cs =>
      if c.isDigit then scanDigits k (acc * 10 + (c.toNat - 48)) cs else none

/-- Consume one expected character. -/
def expectChar (c : Char) : List Char → Option (List Char)
  | [] => none
  | c' :: rest => if c' = c then some rest else none

theorem isDigit_digitChar {d : Nat} (h : d < 10) : (digitChar d).isDigit = true := by
  interval_cases d <;> decide

theorem toNat_digitChar {d : Nat} (h : d < 10) : (digitChar d).toNat - 48 = d := by
  interval_cases d <;> decide

theorem isDigit_ne_underscore {c : Char} (h : c.isDigit = true) : c ≠ '_' := by
  intro hc
  subst hc
  exact absurd h (by decide)

theorem expectChar_cons (c : Char) (rest : List Char) :
    expectChar c (c :: rest) = some rest := by
  simp [expectChar]

theorem scanDigits_padNum : ∀ (k acc n : Nat) (rest : List Char), n < 10 ^ k →
    scanDigits k acc (padNum k n ++ rest) = some (acc * 10 ^ k + n, rest) := by
  intro k
  induction k with
  | zero =>
      intro acc n rest h
      have hn : n = 0 := Nat.lt_one_iff.mp (by simpa using h)
      subst hn
      simp [padNum, scanDigits]
  | succ k ih =>
      intro acc n rest h
      have hpos : 0 < 10 ^ k := Nat.pos_pow_of_pos k (by decide)
      have hd : n / 10 ^ k < 10 := by
        rw [Nat.div_lt_iff_lt_mul hpos]
        calc n < 10 ^ (k + 1) := h
        _ = 10 * 10 ^ k := by ring
        _ = 10 * 10 ^ k := rfl
      have hm : n % 10 ^ k < 10 ^ k := Nat.mod_lt _ hpos
      simp only [padNum, List.cons_append, scanDigits, isDigit_digitChar hd, if_true,
        toNat_digitChar hd, List.append_eq]
      rw [ih _ _ _ hm]
      congr 1
      have hnm := Nat.div_add_mod n (10 ^ k)
      have : (acc * 10 + n / 10 ^ k) * 10 ^ k + n % 10 ^ k
          = acc * (10 ^ k * 10) + (10 ^ k * (n / 10 ^ k) + n % 10 ^ k) := by ring
      rw [Prod.mk.injEq]
      constructor
      · rw [this, hnm, pow_succ]
      · rfl

theorem padNum_mem_isDigit : ∀ (k n : Nat), n < 10 ^ k →
    ∀ c ∈ padNum k n, c.isDigit = true := by
  intro k
  induction k with
  | zero => intro n _ c hc; simp [padNum] at hc
  | succ k ih =>
      intro n h c hc
      have hpos : 0 < 10 ^ k := Nat.pos_pow_of_pos k (by decide)
      have hd : n / 10 ^ k < 10 := by
        rw [Nat.div_lt_iff_lt_mul hpos]
        calc n < 10 ^ (k + 1) := h
        _ = 10 * 10 ^ k := by ring
      simp only [padNum, List.mem_cons] at hc
      rcases hc with hc | hc
      · subst hc; exact isDigit_digitChar hd
      · exact ih _ (Nat.mod_lt _ hpos) c hc

/-- Model of `datetime.isoformat()` for a naive datetime:
`YYYY-MM-DDTHH:MM:SS` with `.ffffff` appended iff `microsecond ≠ 0`. -/
def isoformat (dt : PyDateTime) : List Char :=
  padNum 4 dt.year ++ '-' :: (padNum 2 dt.month ++ '-' :: (padNum 2 dt.day ++
  'T' :: (padNum 2 dt.hour ++ ':' :: (padNum 2 dt.minute ++ ':' :: (padNum 2 dt.second ++
  (if dt.microsecond = 0 then [] else '.' :: padNum 6 dt.microsecond))))))

/-- The optional `.ffffff` fractional-second tail of an ISO string:
empty means microsecond `0`; otherwise a dot followed by exactly six
digits. -/
def parseFracSeconds : List Char → Option Nat
  | [] => some 0
  | '.' :: cs =>
      match scanDigits 6 0 cs with
      | some (us, []) => some us
      | _ => none
  | _ => none

/-- Model of `dateutil.parser.parse`, modelled on the image of `isoformat`: an exact
ISO-8601 scanner.  (The library parser is strictly more lenient; only its
behaviour on well-formed ISO strings matters for the executor codec.) -/
def parseIso (cs : List Char) : Option PyDateTime := do
  let (y, cs) ← scanDigits 4 0 cs
  let cs ← expectChar '-' cs
  let (mo, cs) ← scanDigits 2 0 cs
  let cs ← expectChar '-' cs
  let (d, cs) ← scanDigits 2 0 cs
  let cs ← expectChar 'T' cs
  let (h, cs) ← scanDigits 2 0 cs
  let cs ← expectChar ':' cs
  let (mi, cs) ← scanDigits 2 0 cs
  let cs ← expectChar ':' cs
  let (s, cs) ← scanDigits 2 0 cs
  let us ← parseFracSeconds cs
  some ⟨y, mo, d, h, mi, s, us⟩

theorem parseFracSeconds_nil : parseFracSeconds [] = some 0 := rfl

theorem parseFracSeconds_dot (us : Nat) (h : us < 10 ^ 6) :
    parseFracSeconds ('.' :: padNum 6 us) = some us := by
  have := scanDigits_padNum 6 0 us [] h
  rw [List.append_nil] at this
  simp [parseFracSeconds, this]

theorem parseIso_isoformat (dt : PyDateTime) (h : dt.Valid) :
    parseIso (isoformat dt) = some dt := by
  obtain ⟨_, hy, _, hmo, _, hd, hh, hmi, hs, hus⟩ := h
  have hy' : dt.year < 10 ^ 4 := by omega
  have hmo' : dt.month < 10 ^ 2 := by omega
  have hd' : dt.day < 10 ^ 2 := by omega
  have hh' : dt.hour < 10 ^ 2 := by omega
  have hmi' : dt.minute < 10 ^ 2 := by omega
  have hs' : dt.second < 10 ^ 2 := by omega
  have hus' : dt.microsecond < 10 ^ 6 := by omega
  unfold parseIso isoformat
  rw [scanDigits_padNum 4 0 dt.year _ hy']
  simp only [Option.bind_eq_bind, Option.some_bind, Nat.zero_mul, Nat.zero_add,
    expectChar_cons]
  rw [scanDigits_padNum 2 0 dt.month _ hmo']
  simp only [Option.some_bind, Nat.zero_mul, Nat.zero_add, expectChar_cons]
  rw [scanDigits_padNum 2 0 dt.day _ hd']
  simp only [Option.some_bind, Nat.zero_mul, Nat.zero_add, expectChar_cons]
  rw [scanDigits_padNum 2 0 dt.hour _ hh']
  simp only [Option.some_bind, Nat.zero_mul, Nat.zero_add, expectChar_cons]
  rw [scanDigits_padNum 2 0 dt.minute _ hmi']
  simp only [Option.some_bind, Nat.zero_mul, Nat.zero_add, expectChar_cons]
  by_cases h0 : dt.microsecond = 0
  · simp only [h0, if_true]
    rw [scanDigits_padNum 2 0 dt.second _ hs']
    simp only [Option.some_bind, Nat.zero_mul, Nat.zero_add, parseFracSeconds_nil]
    cases dt
    simp_all
  · simp only [h0, if_false]
    rw [scanDigits_padNum 2 0 dt.second _ hs']
    simp only [Option.some_bind, Nat.zero_mul, Nat.zero_add,
      parseFracSeconds_dot dt.microsecond hus']

theorem isoformat_no_underscore (dt : PyDateTime) (h : dt.Valid) :
    ∀ c ∈ isoformat dt, c ≠ '_' := by
  obtain ⟨_, hy, _, hmo, _, hd, hh, hmi, hs, hus⟩ := h
  intro c hc
  simp only [isoformat, List.mem_append, List.mem_cons] at hc
  rcases hc with hc | hc | hc | hc | hc | hc | hc | hc | hc | hc | hc | hc
  · exact isDigit_ne_underscore (padNum_mem_isDigit 4 dt.year (by omega) c hc)
  · subst hc; decide
  · exact isDigit_ne_underscore (padNum_mem_isDigit 2 dt.month (by omega) c hc)
  · subst hc; decide
  · exact isDigit_ne_underscore (padNum_mem_isDigit 2 dt.day (by omega) c hc)
  · subst hc; decide
  · exact isDigit_ne_underscore (padNum_mem_isDigit 2 dt.hour (by omega) c hc)
  · subst hc; decide
  · exact isDigit_ne_underscore (padNum_mem_isDigit 2 dt.minute (by omega) c hc)
  · subst hc; decide
  · exact isDigit_ne_underscore (padNum_mem_isDigit 2 dt.second (by omega) c hc)
  · by_cases h0 : dt.microsecond = 0
    · simp [h0] at hc
    · simp only [h0, if_false, List.mem_cons] at hc
      rcases hc with hc | hc
      · subst hc; decide
      · exact isDigit_ne_underscore (padNum_mem_isDigit 6 dt.microsecond (by omega) c hc)

/-! ## The label-safe substitution -/

/-- One character of `str.replace(":", "_")`. -/
def colonToUnderscore (c : Char) : Char := if c = ':' then '_' else c

/-- One character of `str.replace("_", ":")`. -/
def underscoreToColon (c : Char) : Char := if c = '_' then ':' else c

/-- Model of `AirflowKubernetesScheduler._datetime_to_label_safe_datestring`
(source lines 372-379): `datetime_obj.isoformat().replace(":", "_")`. -/
def datetimeToLabelSafeDatestring (dt : PyDateTime) : String :=
  String.mk ((isoformat dt).map colonToUnderscore)

/-- Model of `AirflowKubernetesScheduler._label_safe_datestring_to_datetime`
(source lines 363-370): `parser.parse(string.replace("_", ":"))`, with
failure surfaced as `none` (the caller catches the exception). -/
def labelSafeDatestringToDatetime (s : String) : Option PyDateTime :=
  parseIso (s.toList.map underscoreToColon)

theorem underscoreToColon_colonToUnderscore {c : Char} (h : c ≠ '_') :
    underscoreToColon (colonToUnderscore c) = c := by
  unfold colonToUnderscore underscoreToColon
  by_cases hc : c = ':'
  · simp [hc]
  · simp [hc, h]

theorem map_sub_roundtrip : ∀ (l : List Char), (∀ c ∈ l, c ≠ '_') →
    l.map (underscoreToColon ∘ colonToUnderscore) = l := by
  intro l
  induction l with
  | nil => intro _; rfl
  | cons c cs ih =>
      intro hl
      have hc : c ≠ '_' := hl c (List.mem_cons_self c cs)
      simp only [List.map_cons, Function.comp_apply,
        underscoreToColon_colonToUnderscore hc]
      rw [ih (fun x hx => hl x (List.mem_cons_of_mem c hx))]

theorem decode_encode_datestring (dt : PyDateTime) (h : dt.Valid) :
    labelSafeDatestringToDatetime (datetimeToLabelSafeDatestring dt) = some dt := by
  unfold labelSafeDatestringToDatetime datetimeToLabelSafeDatestring
  have htl : (String.mk ((isoformat dt).map colonToUnderscore)).toList
      = (isoformat dt).map colonToUnderscore := rfl
  rw [htl, List.map_map, map_sub_roundtrip _ (isoformat_no_underscore dt h)]
  exact parseIso_isoformat dt h

/-! ## Pod-name sanitization (`_strip_unsafe_kubernetes_special_chars`,
`_make_safe_pod_id`, `_create_pod_id`, source lines 327-361)

Python 3's `str.isalnum` / `str.lower` follow the full Unicode tables.
They are modelled here exactly for all code points below `U+0100` (ASCII
plus the Latin-1 supplement) — enough to witness that non-ASCII
alphanumerics *do* survive the source's sanitization and break the
DNS-1123 shape (see `nonAscii_alnum_survives_strip`).  Code points
`≥ U+0100` are outside the embedding's domain; theorems whose truth
depends on character classes therefore carry explicit ASCII hypotheses
on the ids. -/

/-- Model of `str.isalnum` for one character, exact below `U+0100`:
ASCII `0-9`/`A-Z`/`a-z`, plus the Latin-1 supplement alphanumerics
`ª` (U+00AA), `²³` (U+00B2-B3), `µ` (U+00B5), `¹` (U+00B9), `º` (U+00BA),
`¼½¾` (U+00BC-BE), `À-Ö` (U+00C0-D6), `Ø-ö` (U+00D8-F6), and
`ø-ÿ` (U+00F8-FF). -/
def pyIsAlnum (c : Char) : Bool :=
  (48 ≤ c.toNat && c.toNat ≤ 57) || (65 ≤ c.toNat && c.toNat ≤ 90) ||
  (97 ≤ c.toNat && c.toNat ≤ 122) ||
  (c.toNat == 170) || (178 ≤ c.toNat && c.toNat ≤ 179) || (c.toNat == 181) ||
  (c.toNat == 185) || (c.toNat == 186) || (188 ≤ c.toNat && c.toNat ≤ 190) ||
  (192 ≤ c.toNat && c.toNat ≤ 214) || (216 ≤ c.toNat && c.toNat ≤ 246) ||
  (248 ≤ c.toNat && c.toNat ≤ 255)

/-- Model of `str.lower` for one character, exact below `U+0100`:
`A-Z` and the Latin-1 uppercase letters `À-Þ` (U+00C0-DE, excluding the
multiplication sign `×` U+00D7) shift by 32; everything else is
unchanged. -/
def pyToLower (c : Char) : Char :=
  if 65 ≤ c.toNat && c.toNat ≤ 90 then Char.ofNat (c.toNat + 32)
  else if (192 ≤ c.toNat && c.toNat ≤ 222) && !(c.toNat == 215) then
    Char.ofNat (c.toNat + 32)
  else c

/-- Model of `AirflowKubernetesScheduler._strip_unsafe_kubernetes_special_chars`:
`''.join(ch.lower() for ind, ch in enumerate(string) if ch.isalnum())`. -/
def stripUnsafeKubernetesSpecialChars (s : String) : String :=
  String.mk ((s.toList.filter pyIsAlnum).map pyToLower)

/-- Python's `l[:n]` slice (a negative bound counts from the end). -/
def pySliceTo (n : Int) (l : List Char) : List Char :=
  if 0 ≤ n then l.take n.toNat else l.take (l.length - (-n).toNat)

/-- Model of `AirflowKubernetesScheduler._make_safe_pod_id`:
`safe_key[:MAX_POD_ID_LEN - len(safe_uuid) - 1] + "-" + safe_uuid`
with `MAX_POD_ID_LEN = 253`. -/
def makeSafePodId (safe_dag_id safe_task_id safe_uuid : String) : String :=
  let maxPodIdLen : Int := 253
  let safe_key := safe_dag_id ++ safe_task_id
  String.mk (pySliceTo (maxPodIdLen - safe_uuid.length - 1) safe_key.toList)
    ++ "-" ++ safe_uuid

/-- Model of `AirflowKubernetesScheduler._create_pod_id`.  The fresh `uuid4().hex`
is passed in explicitly (32 lowercase hex characters at every call). -/
def createPodId (dag_id task_id uuid_hex : String) : String :=
  makeSafePodId
    (stripUnsafeKubernetesSpecialChars dag_id)
    (stripUnsafeKubernetesSpecialChars task_id)
    (stripUnsafeKubernetesSpecialChars uuid_hex)

/-! ### The DNS-1123 subdomain shape
`^[a-z0-9]([-a-z0-9]*[a-z0-9])?(\.[a-z0-9]([-a-z0-9]*[a-z0-9])?)*$`:
a non-empty dot-separated list of labels, each a non-empty `[-a-z0-9]`
string that starts and ends with `[a-z0-9]`. -/

/-- A `[a-z0-9]` character. -/
def isLowerAlnum (c : Char) : Bool :=
  (48 ≤ c.toNat && c.toNat ≤ 57) || (97 ≤ c.toNat && c.toNat ≤ 122)

/-- A `[-a-z0-9]` character. -/
def isDnsNameChar (c : Char) : Bool := c == '-' || isLowerAlnum c

/-- One `[a-z0-9]([-a-z0-9]*[a-z0-9])?` label. -/
def dnsLabelOk (l : List Char) : Bool :=
  !l.isEmpty && l.all isDnsNameChar &&
  (match l.head? with | some c => isLowerAlnum c | none => false) &&
  (match l.getLast? with | some c => isLowerAlnum c | none => false)

/-- Split a character list at every `'.'`. -/
def splitDot : List Char → List (List Char)
  | [] => [[]]
  | c :: rest =>
      if c = '.' then [] :: splitDot rest
      else
        match splitDot rest with
        | s :: ss => (c :: s) :: ss
        | [] => [[c]]

/-- The DNS-1123 subdomain regex of the claim, as a decidable check. -/
def matchesDNS1123 (s : String) : Bool := (splitDot s.toList).all dnsLabelOk

/-! ## Configuration (`KubeConfig`, source lines 36-93)

Optional settings absent from the configuration file are `none`
(`safe_get` returns the default `None`).  Python truthiness makes the
empty string falsy as well. -/

/-- Python truthiness of an optional string. -/
def truthy : Option String → Bool
  | none => false
  | some s => !s.isEmpty

structure KubeConfig where
  dags_folder : String
  kube_image : String
  delete_worker_pods : Bool
  kube_namespace : String
  git_repo : Option String
  git_branch : Option String
  git_subpath : Option String
  git_user : Option String
  git_password : Option String
  dags_volume_claim : Option String
  dags_volume_subpath : Option String
  deriving DecidableEq, Repr

/-- Model of `KubeConfig._validate` (source lines 87-93): `true` iff the
constructor raises `AirflowConfigException`. -/
def validateRaises (cfg : KubeConfig) : Bool :=
  !truthy cfg.dags_volume_claim &&
    (!truthy cfg.git_repo || !truthy cfg.git_branch)

/-- The spec's wording (§6, "Configuration validation"): *exactly one* of
{`dags_volume_claim`, (`git_repo` ∧ `git_branch`)} is set. -/
def specExactlyOneMode (cfg : KubeConfig) : Bool :=
  (truthy cfg.dags_volume_claim && !(truthy cfg.git_repo && truthy cfg.git_branch)) ||
  (!truthy cfg.dags_volume_claim && truthy cfg.git_repo && truthy cfg.git_branch)

/-! ## Pod specification synthesis (`PodMaker`, source lines 96-198) -/

/-- The `volumes` entries built by `_get_volumes_and_mounts`. -/
inductive VolumeSource where
  | bare
  | persistentVolumeClaim (claimName : String)
  | emptyDir
  deriving DecidableEq, Repr

structure Volume where
  name : String
  source : VolumeSource
  deriving DecidableEq, Repr

structure VolumeMount where
  name : String
  mountPath : String
  readOnly : Bool
  subPath : Option String
  deriving DecidableEq, Repr

structure InitContainer where
  name : String
  image : String
  env : List (String × String)
  volumeMounts : List VolumeMount
  deriving DecidableEq, Repr

/-- Model of `PodMaker._get_volumes_and_mounts` (source lines 142-161). -/
def getVolumesAndMounts (cfg : KubeConfig) : List Volume × List VolumeMount :=
  let volume_name := "airflow-dags"
  let volume_mounts : List VolumeMount :=
    [{ name := volume_name, mountPath := cfg.dags_folder,
       readOnly := true, subPath := none }]
  if truthy cfg.dags_volume_claim then
    ([{ name := volume_name,
        source := VolumeSource.persistentVolumeClaim
          (cfg.dags_volume_claim.getD "") }],
     if truthy cfg.dags_volume_subpath then
       [{ name := volume_name, mountPath := cfg.dags_folder,
          readOnly := true, subPath := cfg.dags_volume_subpath }]
     else volume_mounts)
  else
    ([{ name := volume_name, source := VolumeSource.emptyDir }], volume_mounts)

/-- Model of `PodMaker._get_init_containers` (source lines 101-140).  The source
mutates `volume_mounts[0]['readOnly'] = False` on the list it receives;
`make_pod` hands it a `copy.deepcopy`, so here the flipped copy is simply
the returned container's mount list.  (The call site always passes a
one-element list, so the `[0]` subscript never faults.) -/
def getInitContainers (cfg : KubeConfig) (volume_mounts : List VolumeMount) :
    List InitContainer :=
  if truthy cfg.dags_volume_claim then []
  else
    let init_environment :=
      [("GIT_SYNC_REPO", cfg.git_repo.getD ""),
       ("GIT_SYNC_BRANCH", cfg.git_branch.getD ""),
       ("GIT_SYNC_ROOT", cfg.dags_folder),
       ("GIT_SYNC_DEST", ""),
       ("GIT_SYNC_ONE_TIME", "true")]
    let init_environment :=
      if truthy cfg.git_user then
        init_environment ++ [("GIT_SYNC_USERNAME", cfg.git_user.getD "")]
      else init_environment
    let init_environment :=
      if truthy cfg.git_password then
        init_environment ++ [("GIT_SYNC_PASSWORD", cfg.git_password.getD "")]
      else init_environment
    let mounts :=
      match volume_mounts with
      | m :: rest => { m with readOnly := false } :: rest
      | [] => []
    [{ name := "git-sync-clone",
       image := "gcr.io/google-containers/git-sync-amd64:v2.0.5",
       env := init_environment,
       volumeMounts := mounts }]

/-- The `Pod` record (`airflow/contrib/kubernetes/pod.py`); only the
fields `make_pod` sets are modelled.  The `envs` dictionary is synthesised
from process-global configuration (`make_environment`) and is kept
abstract as a parameter of `makePod`. -/
structure Pod where
  namespace_ : String
  name : String
  image : String
  cmds : List String
  args : List String
  labels : List (String × String)
  init_containers : List InitContainer
  volumes : List Volume
  volume_mounts : List VolumeMount
  deriving DecidableEq, Repr

/-- Model of `PodMaker.make_pod` (source lines 180-198).  `execution_date` arrives
already encoded by `_datetime_to_label_safe_datestring` (see `run_next`,
lines 289-293). -/
def makePod (cfg : KubeConfig) (namespace_ pod_id dag_id task_id execution_date
    airflow_command : String) : Pod :=
  let vm := getVolumesAndMounts cfg
  { namespace_ := namespace_
    name := pod_id
    image := cfg.kube_image
    cmds := ["bash", "-cx", "--"]
    args := [airflow_command]
    labels :=
      [("airflow-slave", ""),
       ("dag_id", dag_id),
       ("task_id", task_id),
       ("execution_date", execution_date)]
    init_containers := getInitContainers cfg vm.2
    volumes := vm.1
    volume_mounts := vm.2 }

/-! ## Task state and identity -/

/-- The `airflow.utils.state.State` members used by the executor.  Airflow's
`State.NONE` is the Python value `None`, so states travel through the
executor as `Option AFState` with `none` standing for Python `None`. -/
inductive AFState where
  | running
  | queued
  | failed
  | success
  deriving DecidableEq, Repr

/-- The identity triple `(dag_id, task_id, execution_date)`. -/
abbrev TaskKey : Type := String × String × PyDateTime

/-- An entry of the multiprocessing watcher queue:
`(pod_id, state, labels)`. -/
abbrev WatchItem : Type := String × Option AFState × List (String × String)

/-- An entry of the result queue: `(key, state, pod_id)`. -/
abbrev ResultItem : Type := TaskKey × Option AFState × String

/-! ## The watcher (`KubernetesJobWatcher.process_status`, lines 230-242) -/

/-- Model of `process_status`, as the list of items it puts on the watcher queue
(`[]` for phases that are only logged).  The source enqueues the Python
value `None` as the success outcome and `State.FAILED` for failure. -/
def processStatus (pod_id : String) (status : String)
    (labels : List (String × String)) : List WatchItem :=
  if status = "Pending" then []
  else if status = "Failed" then [(pod_id, some AFState.failed, labels)]
  else if status = "Succeeded" then [(pod_id, none, labels)]
  else if status = "Running" then []
  else []

/-! ## Label decoding (`_labels_to_key`, lines 381-388) -/

/-- Model of `AirflowKubernetesScheduler._labels_to_key`: look up the three label
keys and parse the datestring; any missing key or parse failure is caught
and turned into `None`. -/
def labelsToKey (labels : List (String × String)) : Option TaskKey := do
  let dag_id ← labels.lookup "dag_id"
  let task_id ← labels.lookup "task_id"
  let ds ← labels.lookup "execution_date"
  let dt ← labelSafeDatestringToDatetime ds
  pure (dag_id, task_id, dt)

/-- Model of `AirflowKubernetesScheduler.process_watcher_task` (lines 319-325), as
the list of items it puts on the result queue for one watcher-queue entry
(`[]` when the labels fail to decode — the event is dropped with a
warning). -/
def processWatcherTask (item : WatchItem) : List ResultItem :=
  let (pod_id, state, labels) := item
  match labelsToKey labels with
  | some key => [(key, state, pod_id)]
  | none => []

/-! ## Pod deletion (`delete_pod`, lines 300-306) -/

/-- Outcome of the cluster's `delete_namespaced_pod` call. -/
inductive ApiResponse where
  | ok
  | apiError (status : Nat)
  deriving DecidableEq, Repr

/-- What one `delete_pod` call did: whether the cluster delete was issued,
and the `ApiException` re-raised to the caller, if any. -/
structure DeleteOutcome where
  issuedDelete : Bool
  raised : Option Nat
  deriving DecidableEq, Repr

/-- Model of `AirflowKubernetesScheduler.delete_pod`; the cluster's response to the
delete call is an explicit parameter. -/
def deletePod (cfg : KubeConfig) (response : ApiResponse) : DeleteOutcome :=
  if cfg.delete_worker_pods then
    match response with
    | ApiResponse.ok => { issuedDelete := true, raised := none }
    | ApiResponse.apiError s =>
        if s ≠ 404 then { issuedDelete := true, raised := some s }
        else { issuedDelete := true, raised := none }
  else { issuedDelete := false, raised := none }

/-! ## Pod launch (`run_next`, lines 272-298) -/

/-- An exception escaping `make_pod` or `run_pod_async`. -/
def PyExc : Type := String

/-- The `try` body of `run_next`: build the pod and issue the asynchronous
create call.  A failure anywhere in that body (quota, connectivity,
bad spec, ...) is injected through the `failure` parameter. -/
def runNextAttempt (cfg : KubeConfig) (namespace_ : String) (key : TaskKey)
    (command uuid_hex : String) (failure : Option PyExc) : Except PyExc (List Pod) :=
  match failure with
  | some e => Except.error e
  | none =>
      let (dag_id, task_id, execution_date) := key
      Except.ok [makePod cfg namespace_ (createPodId dag_id task_id uuid_hex)
        dag_id task_id (datetimeToLabelSafeDatestring execution_date) command]

/-- Model of `AirflowKubernetesScheduler.run_next`: the `try`/`except Exception`
wrapper around `runNextAttempt` — an exception is logged
(`'An error occurred!'`) and swallowed, leaving no pod launched. -/
def runNext (cfg : KubeConfig) (namespace_ : String) (key : TaskKey)
    (command uuid_hex : String) (failure : Option PyExc) : Except PyExc (List Pod) :=
  match runNextAttempt cfg namespace_ key command uuid_hex failure with
  | Except.ok pods => Except.ok pods
  | Except.error _ => Except.ok []

/-! ## The executor loop (`sync` / `_change_state`, lines 308-317 and
427-457)

The mutable state of `KubernetesExecutor` plus its
`AirflowKubernetesScheduler` is threaded explicitly.  Queues are lists
(head = front); `running` and `event_buffer` are the `BaseExecutor`
dictionaries; `db` is the scheduler's `TaskInstance` table keyed by
`(dag_id, task_id, execution_date)`.  Cluster delete calls made inside
the loop are recorded in `deleted` (their error path is analysed
separately in `deletePod`), and `run_next` invocations in `launched`. -/

structure KState where
  watcher_queue : List WatchItem
  result_queue : List ResultItem
  task_queue : List (TaskKey × String)
  running : List TaskKey
  event_buffer : List (TaskKey × Option AFState)
  db : List (TaskKey × Option AFState)
  deleted : List String
  launched : List TaskKey

/-- Dictionary update (replace the binding if present, else append). -/
def setAssoc {α β : Type} [DecidableEq α] : List (α × β) → α → β → List (α × β)
  | [], k, v => [(k, v)]
  | (k', v') :: rest, k, v =>
      if k' = k then (k, v) :: rest else (k', v') :: setAssoc rest k v

/-- Dictionary lookup with decidable key equality. -/
def lookupAssoc {α β : Type} [DecidableEq α] : List (α × β) → α → Option β
  | [], _ => none
  | (k', v) :: rest, k => if k' = k then some v else lookupAssoc rest k

/-- Model of `dict.pop(key)` with the `KeyError` swallowed: remove the binding for
`key` if present. -/
def popKey {α : Type} [DecidableEq α] : List α → α → List α
  | [], _ => []
  | k' :: rest, k => if k' = k then rest else k' :: popKey rest k

/-- An exception propagating out of `_change_state`: the re-raised
non-404 `ApiException` from the in-loop `delete_pod` call (line 441), or
sqlalchemy's no-row error from `.one()` (line 452). -/
inductive PyError where
  | apiException (status : Nat)
  | noResultFound
  deriving DecidableEq, Repr

/-- The tail of `KubernetesExecutor._change_state` (lines 446-457), after
the pod-delete/`running`-pop block: record the state in `event_buffer`,
query the `TaskInstance` row (`.one()` raises — modelled as
`Except.error` — when no row matches), and write the row only when its
current state is `RUNNING` or `QUEUED`. -/
def changeStateFinish (s : KState) (key : TaskKey) (state : Option AFState) :
    Except PyError KState :=
  match lookupAssoc s.db key with
  | none => Except.error PyError.noResultFound
  | some item_state =>
      if item_state = some AFState.running ∨ item_state = some AFState.queued then
        Except.ok { s with
          event_buffer := setAssoc s.event_buffer key state,
          db := setAssoc s.db key state }
      else
        Except.ok { s with event_buffer := setAssoc s.event_buffer key state }

/-- Model of `KubernetesExecutor._change_state` (lines 438-457): unless
the new state is `RUNNING`, call `delete_pod` — whose non-404
`ApiException` (see `deletePod`, the cluster's `response` being an
explicit parameter) re-raises out of `_change_state` before `running` is
popped or the event buffer written — then drop the key from `running`
(`KeyError` swallowed) and continue with `changeStateFinish`.  (On a
raise the model returns only the error; the partially mutated state is
never examined further, as the exception propagates out of `sync`.) -/
def changeState (cfg : KubeConfig) (s : KState) (key : TaskKey)
    (state : Option AFState) (pod_id : String) (response : ApiResponse) :
    Except PyError KState :=
  if state ≠ some AFState.running then
    match (deletePod cfg response).raised with
    | some st => Except.error (PyError.apiException st)
    | none =>
        changeStateFinish
          { s with
            deleted :=
              if (deletePod cfg response).issuedDelete then s.deleted ++ [pod_id]
              else s.deleted,
            running := popKey s.running key }
          key state
  else
    changeStateFinish s key state

/-- The drain loop of `AirflowKubernetesScheduler.sync` (lines 308-317):
`while not self.watcher_queue.empty(): self.process_watcher_task()`,
accumulating onto the result queue. -/
def drainWatcherQueue : List WatchItem → List ResultItem → List ResultItem
  | [], acc => acc
  | item :: rest, acc => drainWatcherQueue rest (acc ++ processWatcherTask item)

/-- The drain loop of `KubernetesExecutor.sync` (lines 429-432):
`while not self.result_queue.empty(): ... self._change_state(*results)`.
The cluster's responses to the in-loop delete calls arrive as a stream
`resps` indexed by the item's position `i` in the drain; an exception
from `_change_state` aborts the loop with the remaining items
unprocessed. -/
def drainResultQueue (cfg : KubeConfig) (resps : Nat → ApiResponse) :
    List ResultItem → Nat → KState → Except PyError KState
  | [], _, s => Except.ok s
  | (key, state, pod_id) :: rest, i, s =>
      match changeState cfg s key state pod_id (resps i) with
      | Except.error e => Except.error e
      | Except.ok s' => drainResultQueue cfg resps rest (i + 1) s'

/-- Model of `KubernetesExecutor.sync` (lines 427-436): run the scheduler-side
`sync` (drain the watcher queue into the result queue), drain the result
queue through `_change_state`, then pop at most one task and `run_next`
it.  `run_next` swallows its own exceptions (see `runNext`), so the
launch step is recorded unconditionally; but an exception escaping
`_change_state` during the drain propagates out of `sync` itself, before
the launch step is reached. -/
def executorSync (cfg : KubeConfig) (resps : Nat → ApiResponse) (s : KState) :
    Except PyError KState :=
  match drainResultQueue cfg resps (drainWatcherQueue s.watcher_queue s.result_queue) 0
      { s with watcher_queue := [], result_queue := [] } with
  | Except.error e => Except.error e
  | Except.ok s2 =>
      match s2.task_queue with
      | [] => Except.ok s2
      | (key, _command) :: rest =>
          Except.ok { s2 with task_queue := rest, launched := s2.launched ++ [key] }

/-! ## Helper lemmas -/

theorem string_toList_append (a b : String) : (a ++ b).toList = a.toList ++ b.toList := rfl

theorem string_length_toList (s : String) : s.length = s.toList.length := rfl

/-- Model of `uuid4().hex` characters: lowercase hexadecimal. -/
def isHexLower (c : Char) : Bool :=
  (48 ≤ c.toNat && c.toNat ≤ 57) || (97 ≤ c.toNat && c.toNat ≤ 102)

theorem isLowerAlnum_ofNat_of_lower {k : Nat} (h1 : 97 ≤ k) (h2 : k ≤ 122) :
    isLowerAlnum (Char.ofNat k) = true := by
  interval_cases k <;> decide

theorem isLowerAlnum_pyToLower {c : Char} (hascii : c.toNat ≤ 127)
    (h : pyIsAlnum c = true) : isLowerAlnum (pyToLower c) = true := by
  simp only [pyIsAlnum, Bool.or_eq_true, Bool.and_eq_true, decide_eq_true_eq,
    beq_iff_eq] at h
  unfold pyToLower
  by_cases hu : 65 ≤ c.toNat ∧ c.toNat ≤ 90
  · have hcond : (65 ≤ c.toNat && c.toNat ≤ 90) = true := by
      simp [hu.1, hu.2]
    rw [hcond, if_pos rfl]
    exact isLowerAlnum_ofNat_of_lower (by omega) (by omega)
  · have hcond : (65 ≤ c.toNat && c.toNat ≤ 90) = false := by
      simp only [Bool.and_eq_false_iff, decide_eq_false_iff_not]
      omega
    have hcond2 : ((192 ≤ c.toNat && c.toNat ≤ 222) && !(c.toNat == 215)) = false := by
      simp only [Bool.and_eq_false_iff, Bool.not_eq_false', beq_iff_eq,
        decide_eq_false_iff_not]
      omega
    rw [hcond, hcond2]
    simp only [Bool.false_eq_true, if_false, isLowerAlnum, Bool.or_eq_true,
      Bool.and_eq_true, decide_eq_true_eq]
    omega

theorem strip_toList (s : String) :
    (stripUnsafeKubernetesSpecialChars s).toList
      = (s.toList.filter pyIsAlnum).map pyToLower := rfl

theorem strip_all_lowerAlnum (s : String)
    (hs : ∀ c ∈ s.toList, c.toNat ≤ 127) :
    ∀ c ∈ (stripUnsafeKubernetesSpecialChars s).toList, isLowerAlnum c = true := by
  intro c hc
  rw [strip_toList] at hc
  obtain ⟨c', hc', rfl⟩ := List.mem_map.mp hc
  exact isLowerAlnum_pyToLower (hs c' (List.mem_of_mem_filter hc'))
    (List.of_mem_filter hc')

theorem isLowerAlnum_isDnsNameChar {c : Char} (h : isLowerAlnum c = true) :
    isDnsNameChar c = true := by
  simp [isDnsNameChar, h]

theorem isLowerAlnum_ne_dot {c : Char} (h : isLowerAlnum c = true) : c ≠ '.' := by
  intro hc
  subst hc
  exact absurd h (by decide)

theorem isHexLower_isLowerAlnum {c : Char} (h : isHexLower c = true) :
    isLowerAlnum c = true := by
  simp only [isHexLower, Bool.or_eq_true, Bool.and_eq_true, decide_eq_true_eq] at h
  simp only [isLowerAlnum, Bool.or_eq_true, Bool.and_eq_true, decide_eq_true_eq]
  omega

theorem list_map_id_on {α : Type} (f : α → α) :
    ∀ (l : List α), (∀ c ∈ l, f c = c) → l.map f = l := by
  intro l
  induction l with
  | nil => intro _; rfl
  | cons c cs ih =>
      intro h
      simp only [List.map_cons, h c (List.mem_cons_self c cs)]
      rw [ih (fun x hx => h x (List.mem_cons_of_mem c hx))]

theorem strip_of_hexLower (s : String) (h : ∀ c ∈ s.toList, isHexLower c = true) :
    stripUnsafeKubernetesSpecialChars s = s := by
  have hdata : (stripUnsafeKubernetesSpecialChars s).toList = s.toList := by
    rw [strip_toList]
    have hfil : s.toList.filter pyIsAlnum = s.toList := by
      apply List.filter_eq_self.mpr
      intro c hc
      have := h c hc
      simp only [isHexLower, Bool.or_eq_true, Bool.and_eq_true, decide_eq_true_eq] at this
      simp only [pyIsAlnum, Bool.or_eq_true, Bool.and_eq_true, decide_eq_true_eq,
        beq_iff_eq]
      omega
    rw [hfil]
    apply list_map_id_on
    intro c hc
    have := h c hc
    simp only [isHexLower, Bool.or_eq_true, Bool.and_eq_true, decide_eq_true_eq] at this
    unfold pyToLower
    have hcond : (65 ≤ c.toNat && c.toNat ≤ 90) = false := by
      simp only [Bool.and_eq_false_iff, decide_eq_false_iff_not]
      omega
    have hcond2 : ((192 ≤ c.toNat && c.toNat ≤ 222) && !(c.toNat == 215)) = false := by
      simp only [Bool.and_eq_false_iff, Bool.not_eq_false', beq_iff_eq,
        decide_eq_false_iff_not]
      omega
    rw [hcond, hcond2]
    simp
  exact congrArg String.mk hdata

theorem splitDot_no_dot : ∀ (l : List Char), (∀ c ∈ l, c ≠ '.') → splitDot l = [l] := by
  intro l
  induction l with
  | nil => intro _; rfl
  | cons c cs ih =>
      intro h
      have hc : c ≠ '.' := h c (List.mem_cons_self c cs)
      simp only [splitDot, if_neg hc]
      rw [ih (fun x hx => h x (List.mem_cons_of_mem c hx))]

/-! ## Claim theorems -/

/-- C1: for every `(dag_id, task_id, execution_time)` TaskKey, decoding
(via `_labels_to_key`) the label set that `make_pod` attaches to the pod —
labels `dag_id`, `task_id`, and `execution_date` encoded by
`_datetime_to_label_safe_datestring` (ISO-8601 with `':'` replaced by
`'_'`), exactly as `run_next` builds it — yields the original key; the
execution time is recovered exactly to ISO-8601 (microsecond)
precision. -/
theorem c1_taskkey_label_roundtrip (cfg : KubeConfig)
    (namespace_ pod_id airflow_command dag_id task_id : String)
    (dt : PyDateTime) (h : dt.Valid) :
    labelsToKey (makePod cfg namespace_ pod_id dag_id task_id
        (datetimeToLabelSafeDatestring dt) airflow_command).labels
      = some (dag_id, task_id, dt) := by
  simp [makePod, labelsToKey, List.lookup, decode_encode_datestring dt h]

/-- Witness for C1 at the key `("dag1", "task1", 2024-01-01T12:34:56)`. -/
theorem c1_witness :
    labelsToKey (makePod
        ⟨"/dags", "img", true, "default", none, none, none, none, none,
          some "claim", none⟩
        "default" "pod1" "dag1" "task1"
        (datetimeToLabelSafeDatestring ⟨2024, 1, 1, 12, 34, 56, 0⟩)
        "airflow run dag1 task1").labels
      = some ("dag1", "task1", ⟨2024, 1, 1, 12, 34, 56, 0⟩) :=
  c1_taskkey_label_roundtrip _ _ _ _ _ _ _ (by decide)

/-- C2 counterexample: with `dag_id = ""` and `task_id = ""` (any ids all
of whose characters fail `isalnum` behave the same) the sanitized prefix
is empty, so `_create_pod_id` returns `"-" ++ uuid_hex`, which starts
with `'-'` and therefore does not match the DNS-1123 subdomain regex. -/
theorem c2_counterexample :
    matchesDNS1123 (createPodId "" "" "0123456789abcdef0123456789abcdef") = false := by
  decide

/-- C2, amended: the pod name's length is at most 253 for *all* ids (and
any 32-character lowercase-hex `uuid_hex`, as `uuid4().hex` always is);
and provided the ids consist of ASCII characters *and* their
concatenated sanitized form is non-empty, the name also matches the
DNS-1123 subdomain regex.  Both provisos are forced: empty sanitization
yields a leading `'-'` (the counterexample), and Python's `isalnum`
keeps non-ASCII alphanumerics, which survive into the name and fail the
regex (see `nonAscii_alnum_survives_strip`). -/
theorem c2_pod_name_dns_safe (dag_id task_id uuid_hex : String)
    (hlen : uuid_hex.length = 32)
    (hhex : ∀ c ∈ uuid_hex.toList, isHexLower c = true) :
    ((∀ c ∈ dag_id.toList, c.toNat ≤ 127) →
     (∀ c ∈ task_id.toList, c.toNat ≤ 127) →
     (stripUnsafeKubernetesSpecialChars dag_id).toList
        ++ (stripUnsafeKubernetesSpecialChars task_id).toList ≠ [] →
     matchesDNS1123 (createPodId dag_id task_id uuid_hex) = true) ∧
    (createPodId dag_id task_id uuid_hex).length ≤ 253 := by
  have hsu : stripUnsafeKubernetesSpecialChars uuid_hex = uuid_hex :=
    strip_of_hexLower _ hhex
  have hUlen : uuid_hex.toList.length = 32 := by
    rw [← string_length_toList]; exact hlen
  have hUne : uuid_hex.toList ≠ [] := by
    intro hU; rw [hU] at hUlen; simp at hUlen
  have hUlow : ∀ c ∈ uuid_hex.toList, isLowerAlnum c = true :=
    fun c hc => isHexLower_isLowerAlnum (hhex c hc)
  set sd := stripUnsafeKubernetesSpecialChars dag_id with hsd
  set st := stripUnsafeKubernetesSpecialChars task_id with hst
  have hname : createPodId dag_id task_id uuid_hex
      = String.mk (pySliceTo ((253 : Int) - uuid_hex.length - 1) (sd ++ st).toList)
        ++ "-" ++ uuid_hex := by
    unfold createPodId makeSafePodId
    rw [hsu]
  have hslice : pySliceTo ((253 : Int) - uuid_hex.length - 1) (sd ++ st).toList
      = ((sd ++ st).toList).take 220 := by
    rw [hlen]
    norm_num [pySliceTo]
    rfl
  set P := ((sd ++ st).toList).take 220 with hP
  have hkey : (sd ++ st).toList = sd.toList ++ st.toList := string_toList_append sd st
  have hL : (createPodId dag_id task_id uuid_hex).toList
      = P ++ '-' :: uuid_hex.toList := by
    rw [hname, hslice, string_toList_append, string_toList_append]
    simp
  constructor
  · intro hascii_dag hascii_task hne
    have hkeyne : (sd ++ st).toList ≠ [] := by rw [hkey]; exact hne
    have hPne : P ≠ [] := by
      rw [hP]
      intro htake
      rcases List.take_eq_nil_iff.mp htake with h220 | hnil
      · exact absurd h220 (by norm_num)
      · exact hkeyne hnil
    have hPlow : ∀ c ∈ P, isLowerAlnum c = true := by
      intro c hc
      have hmem : c ∈ sd.toList ++ st.toList := hkey ▸ List.take_subset 220 _ hc
      rcases List.mem_append.mp hmem with hm | hm
      · exact strip_all_lowerAlnum dag_id hascii_dag c hm
      · exact strip_all_lowerAlnum task_id hascii_task c hm
    have hnodot : ∀ c ∈ P ++ '-' :: uuid_hex.toList, c ≠ '.' := by
      intro c hc
      rcases List.mem_append.mp hc with hm | hm
      · exact isLowerAlnum_ne_dot (hPlow c hm)
      · rcases List.mem_cons.mp hm with hm | hm
        · subst hm; decide
        · exact isLowerAlnum_ne_dot (hUlow c hm)
    have hall : ∀ c ∈ P ++ '-' :: uuid_hex.toList, isDnsNameChar c = true := by
      intro c hc
      rcases List.mem_append.mp hc with hm | hm
      · exact isLowerAlnum_isDnsNameChar (hPlow c hm)
      · rcases List.mem_cons.mp hm with hm | hm
        · subst hm; decide
        · exact isLowerAlnum_isDnsNameChar (hUlow c hm)
    have hlabel : dnsLabelOk (P ++ '-' :: uuid_hex.toList) = true := by
      obtain ⟨c0, P', hP'⟩ : ∃ c0 P', P = c0 :: P' := by
        cases hPc : P with
        | nil => exact absurd hPc hPne
        | cons a l => exact ⟨a, l, rfl⟩
      have hhead : (P ++ '-' :: uuid_hex.toList).head? = some c0 := by
        rw [List.head?_append_of_ne_nil _ hPne, hP']
        rfl
      have hlast : (P ++ '-' :: uuid_hex.toList).getLast? = uuid_hex.toList.getLast? := by
        rw [List.getLast?_append_cons]
        have : '-' :: uuid_hex.toList = ['-'] ++ uuid_hex.toList := rfl
        rw [this, List.getLast?_append_of_ne_nil _ hUne]
      have hlastv : uuid_hex.toList.getLast? = some (uuid_hex.toList.getLast hUne) :=
        List.getLast?_eq_getLast _ hUne
      have hlastlow : isLowerAlnum (uuid_hex.toList.getLast hUne) = true :=
        hUlow _ (List.getLast_mem hUne)
      have hheadlow : isLowerAlnum c0 = true :=
        hPlow c0 (by rw [hP']; exact List.mem_cons_self c0 P')
      have hempty : (P ++ '-' :: uuid_hex.toList).isEmpty = false := by
        rw [hP']
        rfl
      have hall' : (P ++ '-' :: uuid_hex.toList).all isDnsNameChar = true :=
        List.all_eq_true.mpr hall
      unfold dnsLabelOk
      rw [hhead, hlast, hlastv, hempty, hall']
      simp only [Bool.not_false, Bool.true_and, Bool.and_true, hheadlow]
      exact hlastlow
    unfold matchesDNS1123
    rw [hL, splitDot_no_dot _ hnodot]
    simp
    exact hlabel
  · have hlenL : (createPodId dag_id task_id uuid_hex).length
        = P.length + (1 + 32) := by
      rw [string_length_toList, hL]
      simp [hUlen]
      exact hlen
    have hPlen : P.length ≤ 220 := by
      rw [hP, List.length_take]
      exact min_le_left _ _
    omega

/-- Witness for C2 (amended) at `("MyDag", "Task-01")` with a fixed
32-character hex UUID, discharging the ASCII and non-emptiness
hypotheses concretely. -/
theorem c2_witness :
    matchesDNS1123 (createPodId "MyDag" "Task-01"
        "0123456789abcdef0123456789abcdef") = true ∧
    (createPodId "MyDag" "Task-01" "0123456789abcdef0123456789abcdef").length ≤ 253 :=
  ⟨(c2_pod_name_dns_safe "MyDag" "Task-01" "0123456789abcdef0123456789abcdef"
      (by decide) (by decide)).1 (by decide) (by decide) (by decide),
   (c2_pod_name_dns_safe "MyDag" "Task-01" "0123456789abcdef0123456789abcdef"
      (by decide) (by decide)).2⟩

/-- Why the ASCII proviso in the amended C2 is necessary: Python's
`isalnum` accepts the non-ASCII letter `Ä` (U+00C4), `lower` maps it to
`ä`, so `_strip_unsafe_kubernetes_special_chars` keeps it, the sanitized
form is non-empty, and the resulting pod name contains `ä`, which is not
a `[-a-z0-9]` character — the name fails the DNS-1123 regex. -/
theorem nonAscii_alnum_survives_strip :
    stripUnsafeKubernetesSpecialChars "Ä" = "ä" ∧
    matchesDNS1123 (createPodId "Ä" "x" "0123456789abcdef0123456789abcdef")
      = false := by
  decide

/-- C3: `process_status` enqueues onto the watcher queue exactly the
terminal outcomes: `(pod, SUCCEEDED-marker, labels)` — the source encodes
the success outcome as Python `None` — iff the phase is `'Succeeded'`,
`(pod, FAILED, labels)` iff the phase is `'Failed'`, and nothing for
`'Pending'`, `'Running'`, or any other phase string (those are only
logged). -/
theorem c3_process_status_terminal_only (pod_id status : String)
    (labels : List (String × String)) (item : WatchItem) :
    item ∈ processStatus pod_id status labels ↔
      ((status = "Succeeded" ∧ item = (pod_id, none, labels)) ∨
       (status = "Failed" ∧ item = (pod_id, some AFState.failed, labels))) := by
  unfold processStatus
  split_ifs with h1 h2 h3 h4 <;> simp_all

/-- C4 counterexample: a configuration with *both* `dags_volume_claim`
and the (`git_repo`, `git_branch`) pair set.  The spec's "exactly one"
predicate rejects it, yet `_validate` does not raise (its only check is
that at least one mode is present). -/
theorem c4_counterexample :
    validateRaises
        ⟨"/dags", "img", true, "default", some "repo", some "branch", none,
          none, none, some "claim", none⟩ = false ∧
    specExactlyOneMode
        ⟨"/dags", "img", true, "default", some "repo", some "branch", none,
          none, none, some "claim", none⟩ = false := by
  decide

/-- C4, amended: `_validate` succeeds iff *at least one* of
{`dags_volume_claim` set, (`git_repo` and `git_branch` both set)} holds;
it raises the configuration error exactly when neither holds.  (When both
are set it succeeds, and pod construction then uses the volume claim.) -/
theorem c4_validate_at_least_one_mode (cfg : KubeConfig) :
    validateRaises cfg = false ↔
      (truthy cfg.dags_volume_claim = true ∨
       (truthy cfg.git_repo = true ∧ truthy cfg.git_branch = true)) := by
  unfold validateRaises
  cases h1 : truthy cfg.dags_volume_claim <;>
    cases h2 : truthy cfg.git_repo <;>
      cases h3 : truthy cfg.git_branch <;> simp

/-- C6: `delete_pod` issues the cluster delete call iff
`delete_worker_pods` is configured true, and re-raises an `ApiException`
iff one was returned, the delete was actually issued, and its status is
not 404 (a 404 is swallowed as success). -/
theorem c6_delete_pod_404_swallowed (cfg : KubeConfig) (response : ApiResponse)
    (st : Nat) :
    ((deletePod cfg response).issuedDelete = true ↔ cfg.delete_worker_pods = true) ∧
    ((deletePod cfg response).raised = some st ↔
      (cfg.delete_worker_pods = true ∧ response = ApiResponse.apiError st ∧ st ≠ 404)) := by
  unfold deletePod
  cases hdw : cfg.delete_worker_pods <;> cases response <;> simp_all
  rename_i s
  by_cases h404 : s = 404 <;> simp_all
  rintro rfl
  exact h404

/-- C7: whenever decoding a label set fails — a missing `dag_id`,
`task_id`, or `execution_date` label, or a timestamp parse error —
`_labels_to_key` returns no key, and `process_watcher_task` consequently
enqueues nothing into the result queue for that event (it is a total
function: the failure is caught, logged, and swallowed, never raised). -/
theorem c7_decode_failure_drops_event (pod_id : String) (state : Option AFState)
    (labels : List (String × String))
    (h : labels.lookup "dag_id" = none ∨ labels.lookup "task_id" = none ∨
         labels.lookup "execution_date" = none ∨
         (∃ ds, labels.lookup "execution_date" = some ds ∧
            labelSafeDatestringToDatetime ds = none)) :
    labelsToKey labels = none ∧ processWatcherTask (pod_id, state, labels) = [] := by
  have hkey : labelsToKey labels = none := by
    unfold labelsToKey
    rcases h with h | h | h | ⟨ds, hds, hparse⟩
    · simp [h]
    · cases hdag : labels.lookup "dag_id" <;> simp [h, hdag]
    · cases hdag : labels.lookup "dag_id" <;>
        cases htask : labels.lookup "task_id" <;> simp [h, hdag, htask]
    · cases hdag : labels.lookup "dag_id" <;>
        cases htask : labels.lookup "task_id" <;> simp [hds, hparse, hdag, htask]
  refine ⟨hkey, ?_⟩
  simp [processWatcherTask, hkey]

/-- Witness for C7 at a label set missing both `task_id` and
`execution_date`. -/
theorem c7_witness :
    labelsToKey [("dag_id", "dag1")] = none ∧
    processWatcherTask ("pod1", some AFState.failed, [("dag_id", "dag1")]) = [] :=
  c7_decode_failure_drops_event "pod1" (some AFState.failed) [("dag_id", "dag1")]
    (Or.inr (Or.inl (by decide)))

/-- C8: `run_next` never propagates an exception to its caller: whatever
failure is raised while building the pod spec or issuing the asynchronous
create-pod call (`failure` ranges over all of them, including none), the
`try`/`except Exception` wrapper returns normally, so the executor loop
continues. -/
theorem c8_run_next_never_raises (cfg : KubeConfig) (namespace_ : String)
    (key : TaskKey) (command uuid_hex : String) (failure : Option PyExc) :
    ∃ pods, runNext cfg namespace_ key command uuid_hex failure = Except.ok pods := by
  unfold runNext
  cases hatt : runNextAttempt cfg namespace_ key command uuid_hex failure with
  | ok pods => exact ⟨pods, rfl⟩
  | error e => exact ⟨[], rfl⟩

/-- C9: in git-sync mode (no volume claim, `git_repo`/`git_branch` set)
the pod built by `make_pod` has exactly one init container whose single
mount of the DAGs volume is read-write (`readOnly = false`), while the
worker container's mount of the same volume stays read-only: the source
flips `readOnly` only on the `copy.deepcopy` of the mounts handed to
`_get_init_containers`, never on the pod's own `volume_mounts`. -/
theorem c9_git_sync_mount_readonly_split (cfg : KubeConfig)
    (namespace_ pod_id dag_id task_id execution_date airflow_command : String)
    (hclaim : truthy cfg.dags_volume_claim = false)
    (hrepo : truthy cfg.git_repo = true)
    (hbranch : truthy cfg.git_branch = true) :
    (makePod cfg namespace_ pod_id dag_id task_id execution_date
        airflow_command).volume_mounts.map VolumeMount.readOnly = [true] ∧
    (makePod cfg namespace_ pod_id dag_id task_id execution_date
        airflow_command).init_containers.map
          (fun c => c.volumeMounts.map VolumeMount.readOnly) = [[false]] := by
  unfold makePod getVolumesAndMounts getInitContainers
  simp [hclaim]

/-- Witness for C9 at a concrete git-sync configuration. -/
theorem c9_witness :
    (makePod
        ⟨"/dags", "img", true, "default", some "repo", some "branch", none,
          none, none, none, none⟩
        "default" "pod1" "dag1" "task1" "2024-01-01T00_00_00"
        "airflow run").volume_mounts.map VolumeMount.readOnly = [true] ∧
    (makePod
        ⟨"/dags", "img", true, "default", some "repo", some "branch", none,
          none, none, none, none⟩
        "default" "pod1" "dag1" "task1" "2024-01-01T00_00_00"
        "airflow run").init_containers.map
          (fun c => c.volumeMounts.map VolumeMount.readOnly) = [[false]] :=
  c9_git_sync_mount_readonly_split _ _ _ _ _ _ _ (by decide) (by decide) (by decide)

theorem lookupAssoc_setAssoc {α β : Type} [DecidableEq α] :
    ∀ (l : List (α × β)) (k : α) (v : β), lookupAssoc (setAssoc l k v) k = some v := by
  intro l
  induction l with
  | nil => intro k v; simp [setAssoc, lookupAssoc]
  | cons p rest ih =>
      intro k v
      obtain ⟨k', v'⟩ := p
      by_cases hk : k' = k
      · simp [setAssoc, lookupAssoc, hk]
      · simp only [setAssoc, lookupAssoc, hk, if_false, ite_false]
        exact ih k v

/-- A `changeStateFinish` call that returns normally never touches the
queues or the launch record, and records the reported state in the event
buffer. -/
theorem changeStateFinish_ok_fields (s : KState) (key : TaskKey)
    (state : Option AFState) (s' : KState)
    (h : changeStateFinish s key state = Except.ok s') :
    s'.watcher_queue = s.watcher_queue ∧ s'.result_queue = s.result_queue ∧
    s'.task_queue = s.task_queue ∧ s'.launched = s.launched ∧
    s'.event_buffer = setAssoc s.event_buffer key state := by
  unfold changeStateFinish at h
  cases hdb : lookupAssoc s.db key with
  | none => rw [hdb] at h; cases h
  | some ti =>
      rw [hdb] at h
      by_cases hti : ti = some AFState.running ∨ ti = some AFState.queued <;>
        simp only [hti, ite_true, ite_false, if_true, if_false,
          Except.ok.injEq] at h <;>
        (subst h
         exact ⟨rfl, rfl, rfl, rfl, rfl⟩)

/-- A `_change_state` call that returns normally never touches the queues
or the launch record, and always records the reported state in the event
buffer. -/
theorem changeState_ok_fields (cfg : KubeConfig) (s : KState) (key : TaskKey)
    (state : Option AFState) (pod_id : String) (response : ApiResponse) (s' : KState)
    (h : changeState cfg s key state pod_id response = Except.ok s') :
    s'.watcher_queue = s.watcher_queue ∧ s'.result_queue = s.result_queue ∧
    s'.task_queue = s.task_queue ∧ s'.launched = s.launched ∧
    s'.event_buffer = setAssoc s.event_buffer key state := by
  unfold changeState at h
  by_cases hrun : state ≠ some AFState.running
  · rw [if_pos hrun] at h
    cases hdel : (deletePod cfg response).raised with
    | some st => rw [hdel] at h; cases h
    | none =>
        rw [hdel] at h
        dsimp only at h
        exact changeStateFinish_ok_fields
          { s with
            deleted :=
              if (deletePod cfg response).issuedDelete then s.deleted ++ [pod_id]
              else s.deleted,
            running := popKey s.running key }
          key state s' h
  · rw [if_neg hrun] at h
    exact changeStateFinish_ok_fields s key state s' h

theorem drainResultQueue_ok_fields (cfg : KubeConfig) (resps : Nat → ApiResponse) :
    ∀ (items : List ResultItem) (i : Nat) (s s' : KState),
      drainResultQueue cfg resps items i s = Except.ok s' →
      s'.watcher_queue = s.watcher_queue ∧ s'.result_queue = s.result_queue ∧
      s'.task_queue = s.task_queue ∧ s'.launched = s.launched := by
  intro items
  induction items with
  | nil =>
      intro i s s' h
      unfold drainResultQueue at h
      simp only [Except.ok.injEq] at h
      subst h
      exact ⟨rfl, rfl, rfl, rfl⟩
  | cons item rest ih =>
      intro i s s' h
      obtain ⟨key, state, pod_id⟩ := item
      unfold drainResultQueue at h
      cases hcs : changeState cfg s key state pod_id (resps i) with
      | error e => rw [hcs] at h; cases h
      | ok s1 =>
          rw [hcs] at h
          obtain ⟨h1, h2, h3, h4, _⟩ :=
            changeState_ok_fields cfg s key state pod_id (resps i) s1 hcs
          obtain ⟨g1, g2, g3, g4⟩ := ih (i + 1) s1 s' h
          exact ⟨g1.trans h1, g2.trans h2, g3.trans h3, g4.trans h4⟩

/-- A concrete PVC-mode configuration (with `delete_worker_pods = true`)
used by the executor-loop witnesses and counterexamples. -/
def exampleCfg : KubeConfig :=
  ⟨"/dags", "img", true, "default", none, none, none, none, none,
    some "claim", none⟩

/-- A state whose result queue holds two terminal events (with matching
`RUNNING` rows) and whose task queue holds one pending task: the input of
the C5 counterexample. -/
def exampleAbortBefore : KState :=
  { watcher_queue := [],
    result_queue :=
      [((("dag1", "task1", ⟨2024, 1, 1, 0, 0, 0, 0⟩) : TaskKey),
        some AFState.failed, "pod1"),
       ((("dag1", "task2", ⟨2024, 1, 1, 0, 0, 0, 0⟩) : TaskKey),
        some AFState.failed, "pod2")],
    task_queue := [(("dag2", "task3", ⟨2024, 2, 2, 0, 0, 0, 0⟩), "airflow run")],
    running := [("dag1", "task1", ⟨2024, 1, 1, 0, 0, 0, 0⟩),
                ("dag1", "task2", ⟨2024, 1, 1, 0, 0, 0, 0⟩)],
    event_buffer := [],
    db := [((("dag1", "task1", ⟨2024, 1, 1, 0, 0, 0, 0⟩) : TaskKey),
            some AFState.running),
           ((("dag1", "task2", ⟨2024, 1, 1, 0, 0, 0, 0⟩) : TaskKey),
            some AFState.running)],
    deleted := [],
    launched := [] }

/-- C5 counterexample: an invocation of `sync()` on a state with *two*
available result events and one pending task, where the cluster answers
the first in-loop `delete_namespaced_pod` with a non-404 error (500).
`delete_pod` re-raises, `_change_state` propagates, and `sync()` aborts
with the `ApiException`: the second available event is never drained and
the pending task is never launched — so the claim's "every invocation
... drains every event currently available" is false of the code on this
input.  (A missing `.one()` row aborts an invocation the same way.) -/
theorem c5_counterexample :
    executorSync exampleCfg (fun _ => ApiResponse.apiError 500) exampleAbortBefore
        = Except.error (PyError.apiException 500) ∧
    exampleAbortBefore.result_queue.length = 2 ∧
    exampleAbortBefore.task_queue.length = 1 :=
  ⟨rfl, rfl, rfl⟩

/-- C5, amended: when a `sync()` tick of the executor *completes
normally* — no in-loop pod delete re-raised a non-404 cluster error and
every reported key had a task-instance row — the watcher queue and the
result queue have been fully drained (both empty afterwards, every
available event processed), the task queue has lost at most its head
(`tail`), and at most one `run_next` launch was recorded; draining
happens before the launch step by the structure of `executorSync`. -/
theorem c5_sync_drains_then_launches_one (cfg : KubeConfig)
    (resps : Nat → ApiResponse) (s s' : KState)
    (h : executorSync cfg resps s = Except.ok s') :
    s'.watcher_queue = [] ∧ s'.result_queue = [] ∧
    s'.task_queue = s.task_queue.tail ∧
    s'.launched.length ≤ s.launched.length + 1 := by
  unfold executorSync at h
  cases hd : drainResultQueue cfg resps
      (drainWatcherQueue s.watcher_queue s.result_queue) 0
      { s with
        watcher_queue := [],
        result_queue := [] } with
  | error e => rw [hd] at h; cases h
  | ok s2 =>
      rw [hd] at h
      dsimp only at h
      obtain ⟨g1, g2, g3, g4⟩ := drainResultQueue_ok_fields cfg resps _ _ _ _ hd
      dsimp only at g1 g2 g3 g4
      cases htq : s2.task_queue with
      | nil =>
          rw [htq] at h
          dsimp only at h
          simp only [Except.ok.injEq] at h
          subst h
          refine ⟨g1, g2, ?_, by rw [g4]; omega⟩
          rw [htq, ← g3, htq]
          rfl
      | cons hd' tl =>
          obtain ⟨key, command⟩ := hd'
          rw [htq] at h
          dsimp only at h
          simp only [Except.ok.injEq] at h
          subst h
          refine ⟨g1, g2, ?_, ?_⟩
          · have hs : s.task_queue = (key, command) :: tl := by rw [← g3, htq]
            rw [hs]
            rfl
          · dsimp only
            rw [List.length_append, g4]
            simp

/-- The guarded-write behaviour of the post-delete tail of
`_change_state`, for any state whose database holds a row for the
key. -/
theorem changeStateFinish_spec (s : KState) (key : TaskKey)
    (state : Option AFState) (ti : Option AFState)
    (hrow : lookupAssoc s.db key = some ti) :
    ∃ s', changeStateFinish s key state = Except.ok s' ∧
      lookupAssoc s'.event_buffer key = some state ∧
      ((ti = some AFState.running ∨ ti = some AFState.queued) →
        s'.db = setAssoc s.db key state) ∧
      (¬(ti = some AFState.running ∨ ti = some AFState.queued) →
        s'.db = s.db) := by
  unfold changeStateFinish
  rw [hrow]
  dsimp only
  by_cases hti : ti = some AFState.running ∨ ti = some AFState.queued
  · rw [if_pos hti]
    exact ⟨_, rfl, lookupAssoc_setAssoc _ key state,
      fun _ => rfl, fun hc => absurd hti hc⟩
  · rw [if_neg hti]
    exact ⟨_, rfl, lookupAssoc_setAssoc _ key state,
      fun hc => absurd hc hti, fun _ => rfl⟩

/-- C10 counterexample: a terminal (`FAILED`) result for a key *absent*
from the executor's `running` set, with the task-instance row present
(and `RUNNING`), on the witness configuration itself
(`delete_worker_pods = true`): when the cluster answers the in-loop
delete with a non-404 error (500), `delete_pod` re-raises and the
exception propagates out of `_change_state` — before `running` is popped
or the event buffer written — so "a terminal result for a key absent
from the running set does not raise" is false of the code on this
input. -/
theorem c10_counterexample :
    changeState exampleCfg
        { watcher_queue := [], result_queue := [], task_queue := [],
          running := [], event_buffer := [],
          db := [((("dag1", "task1", ⟨2024, 1, 1, 0, 0, 0, 0⟩) : TaskKey),
                  some AFState.running)],
          deleted := [], launched := [] }
        ("dag1", "task1", ⟨2024, 1, 1, 0, 0, 0, 0⟩)
        (some AFState.failed) "pod1" (ApiResponse.apiError 500)
      = Except.error (PyError.apiException 500) := rfl

/-- C10, amended: when `_change_state` reports `state` for `key`, the
scheduler database holds a row for the key in state `ti`, and the
in-loop pod delete does not re-raise (the cluster answered the delete —
if one was issued at all — with success or 404), the call returns
normally: in particular the `dict.pop` `KeyError` for a key absent from
the executor's `running` set is swallowed (no hypothesis on `running` is
needed), the event buffer records `state` for the key, and the database
row is written iff `ti` is `RUNNING` or `QUEUED` (otherwise the database
is left unchanged). -/
theorem c10_change_state_guarded_write (cfg : KubeConfig) (s : KState)
    (key : TaskKey) (state : Option AFState) (pod_id : String)
    (response : ApiResponse) (ti : Option AFState)
    (hrow : lookupAssoc s.db key = some ti)
    (hdel : (deletePod cfg response).raised = none) :
    ∃ s', changeState cfg s key state pod_id response = Except.ok s' ∧
      lookupAssoc s'.event_buffer key = some state ∧
      ((ti = some AFState.running ∨ ti = some AFState.queued) →
        s'.db = setAssoc s.db key state) ∧
      (¬(ti = some AFState.running ∨ ti = some AFState.queued) →
        s'.db = s.db) := by
  unfold changeState
  by_cases hrun : state ≠ some AFState.running
  · rw [if_pos hrun, hdel]
    exact changeStateFinish_spec
      { s with
        deleted :=
          if (deletePod cfg response).issuedDelete then s.deleted ++ [pod_id]
          else s.deleted,
        running := popKey s.running key }
      key state ti hrow
  · rw [if_neg hrun]
    exact changeStateFinish_spec s key state ti hrow

/-- A concrete pre-`sync()` state: one `Succeeded` watch event for a pod
whose labels decode to `("dag1", "task1", 2024-01-01T00:00:00)` (with a
matching `QUEUED` database row), and one pending task in the task
queue. -/
def exampleSyncBefore : KState :=
  { watcher_queue :=
      [("pod1", none,
        [("airflow-slave", ""), ("dag_id", "dag1"), ("task_id", "task1"),
         ("execution_date", "2024-01-01T00_00_00")])],
    result_queue := [],
    task_queue := [(("dag2", "task2", ⟨2024, 2, 2, 0, 0, 0, 0⟩), "airflow run")],
    running := [("dag1", "task1", ⟨2024, 1, 1, 0, 0, 0, 0⟩)],
    event_buffer := [],
    db := [((("dag1", "task1", ⟨2024, 1, 1, 0, 0, 0, 0⟩) : TaskKey),
            some AFState.queued)],
    deleted := [],
    launched := [] }

/-- The state `executorSync` produces from `exampleSyncBefore`. -/
def exampleSyncAfter : KState :=
  { watcher_queue := [],
    result_queue := [],
    task_queue := [],
    running := [],
    event_buffer := [((("dag1", "task1", ⟨2024, 1, 1, 0, 0, 0, 0⟩) : TaskKey),
                      (none : Option AFState))],
    db := [((("dag1", "task1", ⟨2024, 1, 1, 0, 0, 0, 0⟩) : TaskKey),
            (none : Option AFState))],
    deleted := ["pod1"],
    launched := [("dag2", "task2", ⟨2024, 2, 2, 0, 0, 0, 0⟩)] }

/-- Witness for C5 (amended) at `exampleSyncBefore` with every cluster
delete answered successfully: the tick processes the watch event
end-to-end and launches the one pending task. -/
theorem c5_witness :
    exampleSyncAfter.watcher_queue = [] ∧ exampleSyncAfter.result_queue = [] ∧
    exampleSyncAfter.task_queue = exampleSyncBefore.task_queue.tail ∧
    exampleSyncAfter.launched.length ≤ exampleSyncBefore.launched.length + 1 :=
  c5_sync_drains_then_launches_one exampleCfg (fun _ => ApiResponse.ok)
    exampleSyncBefore exampleSyncAfter rfl

/-- Witness for C10 (amended): reporting `FAILED` for a key whose
database row is `RUNNING`, with the key *not* in the executor's
`running` set, the cluster answering the delete with success. -/
theorem c10_witness :
    ∃ s', changeState exampleCfg
        { watcher_queue := [], result_queue := [], task_queue := [],
          running := [], event_buffer := [],
          db := [((("dag1", "task1", ⟨2024, 1, 1, 0, 0, 0, 0⟩) : TaskKey),
                  some AFState.running)],
          deleted := [], launched := [] }
        ("dag1", "task1", ⟨2024, 1, 1, 0, 0, 0, 0⟩)
        (some AFState.failed) "pod1" ApiResponse.ok = Except.ok s' ∧
      lookupAssoc s'.event_buffer ("dag1", "task1", ⟨2024, 1, 1, 0, 0, 0, 0⟩)
        = some (some AFState.failed) ∧
      ((some AFState.running = some AFState.running ∨
        some AFState.running = some AFState.queued) →
        s'.db = setAssoc
          [((("dag1", "task1", ⟨2024, 1, 1, 0, 0, 0, 0⟩) : TaskKey),
            some AFState.running)]
          ("dag1", "task1", ⟨2024, 1, 1, 0, 0, 0, 0⟩) (some AFState.failed)) ∧
      (¬(some AFState.running = some AFState.running ∨
         some AFState.running = some AFState.queued) →
        s'.db = [((("dag1", "task1", ⟨2024, 1, 1, 0, 0, 0, 0⟩) : TaskKey),
                  some AFState.running)]) :=
  c10_change_state_guarded_write exampleCfg
    { watcher_queue := [], result_queue := [], task_queue := [],
      running := [], event_buffer := [],
      db := [((("dag1", "task1", ⟨2024, 1, 1, 0, 0, 0, 0⟩) : TaskKey),
              some AFState.running)],
      deleted := [], launched := [] }
    ("dag1", "task1", ⟨2024, 1, 1, 0, 0, 0, 0⟩)
    (some AFState.failed) "pod1" ApiResponse.ok (some AFState.running)
    (by decide) (by decide)

end KubeExec
